import Mathlib

/-!
Shallow embedding of the `useSlider` drag/slide hook.

The hook keeps three numeric React states (`currentTranslate`, `prevTranslate`,
`maxTranslate`) and several refs (`isMouseDownRef`, `diffRef`, `startPosRef`,
`isInputClickRef`); the caller supplies the `isDragging` flag and its setter.
Pixel coordinates and widths are modelled as rationals.  The DOM track element
is modelled by `Option Track`: `none` when the ref is not mounted, `some t`
with the measured child widths and container width otherwise.  Style writes
(transform / transition strings) carry no state read back by the hook and are
not part of the state.  The zero-delay `setTimeout(() => setIsDragging(false), 0)`
on release outside the track is modelled as taking effect within the same step,
i.e. the settled state after the event (and its immediate timers) has run.
-/

namespace UseSlider

/-- Measured geometry of the mounted track element: the widths of its child
slides (via `getBoundingClientRect().width`) and the container width
(`offsetWidth`). -/
structure Track where
  slides : List ℚ
  containerWidth : ℚ
deriving DecidableEq

/-- Facts about the target element of a pointer-up event that the handler
queries: whether `target.closest('.layout-key')` matches, whether the track
contains the target, and whether `target.closest('#multi-modal-bg')` or
`target.closest('#multi-modal-inner-bg')` matches. -/
structure Target where
  closestLayoutKey : Bool
  insideTrack : Bool
  closestMultiModal : Bool
deriving DecidableEq

/-- The mutable state of one mounted `useSlider` instance: the three React
states, the caller-held `isDragging` flag, the refs, and whether the global
window listeners are currently attached (maintained by the listener effect). -/
structure SliderState where
  currentTranslate : ℚ
  prevTranslate : ℚ
  maxTranslate : ℚ
  isDragging : Bool
  isMouseDown : Bool
  diff : ℚ
  startPos : ℚ
  isInputClick : Bool
  listenersAttached : Bool
deriving DecidableEq

/-- Source line 36: `const BOUNCE_FACTOR = 0.3;`. -/
def BOUNCE_FACTOR : ℚ := 0.3

/-- Initial state: all numeric states start at 0, all flags false. -/
def initState : SliderState := ⟨0, 0, 0, false, false, 0, 0, false, false⟩

/-- Source lines 53-66: `diffRef.current = currentPosition - startPosRef.current`,
where `x` is the event's clientX. -/
def calculateDiff (x : ℚ) (s : SliderState) : SliderState :=
  { s with diff := x - s.startPos }

/-- Source lines 68-79: compute `prevTranslate + diff`, damp any overscroll past
0 or past `maxTranslate` by `BOUNCE_FACTOR`, and store the result in
`currentTranslate`.  No-op when the track is not mounted. -/
def translate (track : Option Track) (s : SliderState) : SliderState :=
  match track with
  | none => s
  | some _ =>
    let nextTranslate := s.prevTranslate + s.diff
    let bounced :=
      if nextTranslate > 0 then nextTranslate * BOUNCE_FACTOR
      else if nextTranslate < s.maxTranslate then
        s.maxTranslate + (nextTranslate - s.maxTranslate) * BOUNCE_FACTOR
      else nextTranslate
    { s with currentTranslate := bounced }

/-- Source lines 81-90: record that the button/touch is held and the starting
clientX. -/
def handleMouseDownTouchStart (x : ℚ) (s : SliderState) : SliderState :=
  { s with isMouseDown := true, startPos := x }

/-- Source lines 92-108: when the track is mounted, recompute `diff`; when the
button is held and `diff` is nonzero, set the dragging flag and run
`translate`. -/
def handleMouseMoveTouchMove (track : Option Track) (x : ℚ) (s : SliderState) : SliderState :=
  match track with
  | none => s
  | some _ =>
    let s1 := calculateDiff x s
    if s1.isMouseDown = true ∧ s1.diff ≠ 0 then
      translate track { s1 with isDragging := true }
    else s1

/-- Source lines 110-156: clear the held flag, record whether this was a tap on
an input-like child, then (when mounted) snap `currentTranslate` back to the
violated bound, clear the dragging flag unless the target sits on the
multi-modal background, and store the handler-entry `currentTranslate` (the
unclamped closure value) into `prevTranslate`. -/
def handleMouseUpTouchEnd (track : Option Track) (tgt : Target) (s : SliderState) : SliderState :=
  let s1 := { s with isMouseDown := false,
                     isInputClick := !s.isDragging && tgt.closestLayoutKey }
  match track with
  | none => s1
  | some _ =>
    let ct := s1.currentTranslate
    let s2 :=
      if ct > 0 then { s1 with currentTranslate := 0 }
      else if ct < s1.maxTranslate then { s1 with currentTranslate := s1.maxTranslate }
      else s1
    if tgt.insideTrack then
      { s2 with isDragging := false, prevTranslate := ct }
    else if tgt.closestMultiModal then
      { s2 with prevTranslate := ct }
    else
      { s2 with isDragging := false, prevTranslate := ct }

/-- Source lines 158-165: one invocation of the callback returned by
`handleInputClick` performs the provided state update once when the gesture was
a tap on an input-like child (`isInputClickRef` set, dragging flag clear) and
zero times otherwise.  The result counts the `setState` calls. -/
def handleInputClick (s : SliderState) : Nat :=
  if s.isDragging then 0 else if s.isInputClick then 1 else 0

/-- Source lines 167-195: for a mounted track with a valid index, set both
translations to the left-fold `acc - (width + gap)` over the children before
`index`; otherwise return untouched. -/
def handleScrollToIndex (track : Option Track) (gap : ℚ) (index : Int) (s : SliderState) :
    SliderState :=
  match track with
  | none => s
  | some t =>
    if t.slides.length = 0 ∨ index < 0 ∨ (t.slides.length : Int) ≤ index then s
    else
      let translateX := (t.slides.take index.toNat).foldl (fun acc w => acc - (w + gap)) 0
      { s with currentTranslate := translateX, prevTranslate := translateX }

/-- Source lines 221-234: the mount-only effect; when the track is mounted with
at least one child, set `maxTranslate` to the negative of total child width
plus `gap * (children - 1)` minus the container width. -/
def mountEffect (track : Option Track) (gap : ℚ) (s : SliderState) : SliderState :=
  match track with
  | none => s
  | some t =>
    if 0 < t.slides.length then
      let tracksWidth := t.slides.foldl (fun acc w => acc + w) 0
      let gapWidth := gap * ((t.slides.length : ℚ) - 1)
      { s with maxTranslate := -(tracksWidth + gapWidth - t.containerWidth) }
    else s

/-- Source lines 203-219: after every commit the effect leaves the four global
window listeners attached exactly when `isDragging` is set (attach on true,
cleanup removes them otherwise). -/
def listenerEffect (s : SliderState) : SliderState :=
  { s with listenersAttached := s.isDragging }

/-- Source lines 212-218: the effect cleanup on unmount removes the global
listeners. -/
def unmountCleanup (s : SliderState) : SliderState :=
  { s with listenersAttached := false }

/-- One externally visible event delivered to the hook. -/
inductive Event where
  | down (x : ℚ)
  | move (x : ℚ)
  | up (tgt : Target)
  | scrollTo (index : Int)
deriving DecidableEq

/-- One settled step: run the event's handler, then the listener effect of the
resulting commit. -/
def step (track : Option Track) (gap : ℚ) (s : SliderState) : Event → SliderState
  | Event.down x => listenerEffect (handleMouseDownTouchStart x s)
  | Event.move x => listenerEffect (handleMouseMoveTouchMove track x s)
  | Event.up tgt => listenerEffect (handleMouseUpTouchEnd track tgt s)
  | Event.scrollTo i => listenerEffect (handleScrollToIndex track gap i s)

/-- Run a list of events from a given state. -/
def runFrom (track : Option Track) (gap : ℚ) (s : SliderState) (events : List Event) :
    SliderState :=
  events.foldl (step track gap) s

/-- Run a full post-mount trace: the mount-only measuring effect, then the
events. -/
def run (track : Option Track) (gap : ℚ) (events : List Event) : SliderState :=
  runFrom track gap (mountEffect track gap initState) events

/-- Left fold of addition over a list of widths is the running total plus the
list sum. -/
theorem foldl_add_sum (l : List ℚ) : ∀ acc : ℚ, l.foldl (fun a w => a + w) acc = acc + l.sum := by
  induction l with
  | nil => intro acc; simp
  | cons w l ih => intro acc; simp [ih]; ring

/-- Left fold of `acc - (w + g)` over a list of widths subtracts the sum of the
gap-padded widths. -/
theorem foldl_sub_sum (g : ℚ) (l : List ℚ) :
    ∀ acc : ℚ, l.foldl (fun a w => a - (w + g)) acc = acc - (l.map (fun w => w + g)).sum := by
  induction l with
  | nil => intro acc; simp
  | cons w l ih => intro acc; simp [ih]; ring

/-- Closed form of the pointer-up handler on a mounted track. -/
theorem handleMouseUpTouchEnd_some (t : Track) (tgt : Target) (s : SliderState) :
    handleMouseUpTouchEnd (some t) tgt s =
      { currentTranslate :=
          if s.currentTranslate > 0 then 0
          else if s.currentTranslate < s.maxTranslate then s.maxTranslate
          else s.currentTranslate,
        prevTranslate := s.currentTranslate,
        maxTranslate := s.maxTranslate,
        isDragging :=
          if tgt.insideTrack then false
          else if tgt.closestMultiModal then s.isDragging
          else false,
        isMouseDown := false,
        diff := s.diff,
        startPos := s.startPos,
        isInputClick := !s.isDragging && tgt.closestLayoutKey,
        listenersAttached := s.listenersAttached } := by
  simp only [handleMouseUpTouchEnd]
  split_ifs <;> rfl

/-- Closed form of the pointer-move handler on a mounted track. -/
theorem handleMouseMoveTouchMove_some (t : Track) (x : ℚ) (s : SliderState) :
    handleMouseMoveTouchMove (some t) x s =
      if s.isMouseDown = true ∧ x - s.startPos ≠ 0 then
        { s with diff := x - s.startPos, isDragging := true,
                 currentTranslate :=
                   if s.prevTranslate + (x - s.startPos) > 0 then
                     (s.prevTranslate + (x - s.startPos)) * BOUNCE_FACTOR
                   else if s.prevTranslate + (x - s.startPos) < s.maxTranslate then
                     s.maxTranslate +
                       (s.prevTranslate + (x - s.startPos) - s.maxTranslate) * BOUNCE_FACTOR
                   else s.prevTranslate + (x - s.startPos) }
      else { s with diff := x - s.startPos } := by
  simp only [handleMouseMoveTouchMove, calculateDiff, translate]

/-- Track whose single slide is narrower than the container, so the measured
bound `maxTranslate = -(50 + 0 - 100) = 50` is positive. -/
def narrowTrack : Track := ⟨[50], 100⟩

/-- Track whose single slide is wider than the container, so
`maxTranslate = -(150 + 0 - 34) = -116`. -/
def wideTrack : Track := ⟨[150], 34⟩

/-- Release target inside the track, not input-like, not on the multi-modal
background. -/
def insideTarget : Target := ⟨false, true, false⟩

/-- Release target inside the track matching `.layout-key`. -/
def layoutKeyTarget : Target := ⟨true, true, false⟩

/-- Release target outside the track on the multi-modal background. -/
def multiModalTarget : Target := ⟨false, false, true⟩

/-- Mid-gesture state on `wideTrack`: button held from `startPos = 0`, settled
offsets 0, measured bound -116. -/
def dragState : SliderState := ⟨0, 0, -116, true, true, 0, 0, false, true⟩

/-- Overscrolled release state on `wideTrack`: the gesture ends with the
rendered offset at 3, past the left bound. -/
def overState : SliderState := ⟨3, 0, -116, true, true, 10, 0, false, true⟩

/-- Claim C10: a pointer-down only sets the held flag and records the starting
X-coordinate; the translations, the dragging flag, the input-click flag and
the recorded diff are untouched. -/
theorem useSlider_C10 (x : ℚ) (s : SliderState) :
    (handleMouseDownTouchStart x s).isMouseDown = true
    ∧ (handleMouseDownTouchStart x s).startPos = x
    ∧ (handleMouseDownTouchStart x s).currentTranslate = s.currentTranslate
    ∧ (handleMouseDownTouchStart x s).prevTranslate = s.prevTranslate
    ∧ (handleMouseDownTouchStart x s).maxTranslate = s.maxTranslate
    ∧ (handleMouseDownTouchStart x s).isDragging = s.isDragging
    ∧ (handleMouseDownTouchStart x s).isInputClick = s.isInputClick
    ∧ (handleMouseDownTouchStart x s).diff = s.diff :=
  ⟨rfl, rfl, rfl, rfl, rfl, rfl, rfl, rfl⟩

/-- Claim C1 (amended): when the measured bound satisfies `maxTranslate ≤ 0`,
the snap-back clamping of `handleMouseUpTouchEnd` on a mounted track leaves the
rendered offset in `[maxTranslate, 0]`. -/
theorem useSlider_C1 (t : Track) (tgt : Target) (s : SliderState) (h : s.maxTranslate ≤ 0) :
    (handleMouseUpTouchEnd (some t) tgt s).maxTranslate
      ≤ (handleMouseUpTouchEnd (some t) tgt s).currentTranslate
    ∧ (handleMouseUpTouchEnd (some t) tgt s).currentTranslate ≤ 0 := by
  rw [handleMouseUpTouchEnd_some]
  dsimp only
  split_ifs with h1 h2
  · exact ⟨h, le_refl 0⟩
  · exact ⟨le_refl _, h⟩
  · push_neg at h1 h2
    exact ⟨h2, h1⟩

/-- Witness for C1 at a concrete overscrolled state on `wideTrack`. -/
theorem useSlider_C1_witness :
    (handleMouseUpTouchEnd (some wideTrack) insideTarget overState).maxTranslate
      ≤ (handleMouseUpTouchEnd (some wideTrack) insideTarget overState).currentTranslate
    ∧ (handleMouseUpTouchEnd (some wideTrack) insideTarget overState).currentTranslate ≤ 0 :=
  useSlider_C1 wideTrack insideTarget overState (by norm_num [overState])

/-- Counterexample to C1 as stated: on a mounted track whose content is
narrower than the container the measured bound is `maxTranslate = 50 > 0`, and
the drag sequence down at 0, move to 10, release inside the track settles at
rendered offset 0, strictly below `maxTranslate`. -/
theorem useSlider_C1_cex :
    (run (some narrowTrack) 16
        [Event.down 0, Event.move 10, Event.up insideTarget]).currentTranslate
      < (run (some narrowTrack) 16
          [Event.down 0, Event.move 10, Event.up insideTarget]).maxTranslate := by
  norm_num [run, runFrom, step, mountEffect, initState, listenerEffect, handleMouseDownTouchStart,
    handleMouseMoveTouchMove, calculateDiff, translate, BOUNCE_FACTOR, narrowTrack, insideTarget,
    handleMouseUpTouchEnd]

/-- Claim C9: a release on a mounted track stores the handler-entry (unclamped)
offset into `prevTranslate` while clamping `currentTranslate` to the violated
bound, so when the release was overscrolled the two stored offsets differ and
`prevTranslate` lies outside `[maxTranslate, 0]`. -/
theorem useSlider_C9 (t : Track) (tgt : Target) (s : SliderState)
    (h : s.currentTranslate > 0 ∨ s.currentTranslate < s.maxTranslate) :
    (handleMouseUpTouchEnd (some t) tgt s).prevTranslate = s.currentTranslate
    ∧ (handleMouseUpTouchEnd (some t) tgt s).currentTranslate
        = (if s.currentTranslate > 0 then (0 : ℚ) else s.maxTranslate)
    ∧ ((handleMouseUpTouchEnd (some t) tgt s).prevTranslate > 0
        ∨ (handleMouseUpTouchEnd (some t) tgt s).prevTranslate
            < (handleMouseUpTouchEnd (some t) tgt s).maxTranslate)
    ∧ (handleMouseUpTouchEnd (some t) tgt s).currentTranslate
        ≠ (handleMouseUpTouchEnd (some t) tgt s).prevTranslate := by
  rw [handleMouseUpTouchEnd_some]
  dsimp only
  by_cases h0 : s.currentTranslate > 0
  · rw [if_pos h0, if_pos h0]
    exact ⟨rfl, rfl, Or.inl h0, (ne_of_gt h0).symm⟩
  · have hm : s.currentTranslate < s.maxTranslate := h.resolve_left h0
    rw [if_neg h0, if_pos hm, if_neg h0]
    exact ⟨rfl, rfl, Or.inr hm, ne_of_gt hm⟩

/-- Witness for C9 at the concrete overscrolled state `overState`. -/
theorem useSlider_C9_witness :
    (handleMouseUpTouchEnd (some wideTrack) insideTarget overState).prevTranslate
        = overState.currentTranslate
    ∧ (handleMouseUpTouchEnd (some wideTrack) insideTarget overState).currentTranslate
        = (if overState.currentTranslate > 0 then (0 : ℚ) else overState.maxTranslate)
    ∧ ((handleMouseUpTouchEnd (some wideTrack) insideTarget overState).prevTranslate > 0
        ∨ (handleMouseUpTouchEnd (some wideTrack) insideTarget overState).prevTranslate
            < (handleMouseUpTouchEnd (some wideTrack) insideTarget overState).maxTranslate)
    ∧ (handleMouseUpTouchEnd (some wideTrack) insideTarget overState).currentTranslate
        ≠ (handleMouseUpTouchEnd (some wideTrack) insideTarget overState).prevTranslate :=
  useSlider_C9 wideTrack insideTarget overState (Or.inl (by norm_num [overState]))

/-- Claim C8: with the track unmounted every operation is a total no-op on the
translation state, and `handleScrollToIndex` with an out-of-range index is a
full no-op; nothing is raised or reported. -/
theorem useSlider_C8 (s : SliderState) (x : ℚ) (tgt : Target) (g : ℚ) (i : Int) :
    translate none s = s
    ∧ handleMouseMoveTouchMove none x s = s
    ∧ (handleMouseUpTouchEnd none tgt s).currentTranslate = s.currentTranslate
    ∧ (handleMouseUpTouchEnd none tgt s).prevTranslate = s.prevTranslate
    ∧ (handleMouseUpTouchEnd none tgt s).maxTranslate = s.maxTranslate
    ∧ handleScrollToIndex none g i s = s
    ∧ (∀ t : Track, (i < 0 ∨ (t.slides.length : Int) ≤ i) →
        handleScrollToIndex (some t) g i s = s) := by
  refine ⟨rfl, rfl, rfl, rfl, rfl, rfl, ?_⟩
  intro t hi
  simp only [handleScrollToIndex]
  rw [if_pos (Or.inr hi)]

/-- Witness for C8 with a negative index on `wideTrack`. -/
theorem useSlider_C8_witness :
    translate none initState = initState
    ∧ handleMouseMoveTouchMove none 0 initState = initState
    ∧ (handleMouseUpTouchEnd none insideTarget initState).currentTranslate
        = initState.currentTranslate
    ∧ (handleMouseUpTouchEnd none insideTarget initState).prevTranslate
        = initState.prevTranslate
    ∧ (handleMouseUpTouchEnd none insideTarget initState).maxTranslate
        = initState.maxTranslate
    ∧ handleScrollToIndex none 16 (-1) initState = initState
    ∧ handleScrollToIndex (some wideTrack) 16 (-1) initState = initState :=
  have h := useSlider_C8 initState 0 insideTarget 16 (-1)
  ⟨h.1, h.2.1, h.2.2.1, h.2.2.2.1, h.2.2.2.2.1, h.2.2.2.2.2.1,
    h.2.2.2.2.2.2 wideTrack (Or.inl (by norm_num))⟩

/-- Track with two slides, used to exercise `handleScrollToIndex`. -/
def scrollTrack : Track := ⟨[10, 20], 5⟩

/-- Track with no children: the measuring effect leaves `maxTranslate` at its
initial 0. -/
def emptyTrack : Track := ⟨[], 100⟩

/-- Claim C2: on a mounted track, `handleScrollToIndex i` with `0 ≤ i <`
children sets the offset to the negative sum over the first `i` children of
(width + gap); out of range, or with no children, or unmounted, it changes no
state. -/
theorem useSlider_C2 (t : Track) (g : ℚ) (i : Int) (s : SliderState) :
    ((0 ≤ i → i < (t.slides.length : Int) →
      (handleScrollToIndex (some t) g i s).currentTranslate
        = -(((t.slides.take i.toNat).map (fun w => w + g)).sum))
    ∧ ((t.slides.length = 0 ∨ i < 0 ∨ (t.slides.length : Int) ≤ i) →
        handleScrollToIndex (some t) g i s = s)
    ∧ handleScrollToIndex none g i s = s) := by
  refine ⟨?_, ?_, rfl⟩
  · intro h0 hlen
    have hg : ¬(t.slides.length = 0 ∨ i < 0 ∨ (t.slides.length : Int) ≤ i) := by
      push_neg
      refine ⟨?_, ?_, ?_⟩ <;> omega
    simp only [handleScrollToIndex]
    rw [if_neg hg]
    simp [foldl_sub_sum]
  · intro hg
    simp only [handleScrollToIndex]
    rw [if_pos hg]

/-- Witness for C2: index 1 on `scrollTrack` scrolls to `-(10 + 5) = -15`;
index -1 is a no-op. -/
theorem useSlider_C2_witness :
    (handleScrollToIndex (some scrollTrack) 5 1 initState).currentTranslate
      = -(((scrollTrack.slides.take (1 : Int).toNat).map (fun w => w + 5)).sum)
    ∧ handleScrollToIndex (some scrollTrack) 5 (-1) initState = initState :=
  ⟨(useSlider_C2 scrollTrack 5 1 initState).1 (by norm_num) (by norm_num [scrollTrack]),
   (useSlider_C2 scrollTrack 5 (-1) initState).2.1 (Or.inr (Or.inl (by norm_num)))⟩

/-- Claim C7 (amended): after mount of a track with at least one child,
`maxTranslate` equals the negative of total child width plus
`gap * (children - 1)` minus the container width, and no later event of the
mounted hook ever changes `maxTranslate` (the measuring effect runs only on
mount). -/
theorem useSlider_C7 (t : Track) (g : ℚ) (s : SliderState) (h : t.slides ≠ []) :
    (mountEffect (some t) g s).maxTranslate
      = -(t.slides.sum + g * ((t.slides.length : ℚ) - 1) - t.containerWidth)
    ∧ ∀ (e : Event) (s1 : SliderState), (step (some t) g s1 e).maxTranslate = s1.maxTranslate := by
  constructor
  · simp only [mountEffect]
    rw [if_pos (List.length_pos.mpr h)]
    simp [foldl_add_sum]
  · intro e s1
    cases e with
    | down x => rfl
    | move x =>
      simp only [step, listenerEffect, handleMouseMoveTouchMove_some]
      split_ifs <;> rfl
    | up tgt =>
      simp only [step, listenerEffect, handleMouseUpTouchEnd_some]
    | scrollTo i =>
      simp only [step, listenerEffect, handleScrollToIndex]
      split_ifs <;> rfl

/-- Witness for C7 on `wideTrack`: the measured bound is -116 and a sample
event preserves it. -/
theorem useSlider_C7_witness :
    (mountEffect (some wideTrack) 16 initState).maxTranslate
      = -(wideTrack.slides.sum + 16 * ((wideTrack.slides.length : ℚ) - 1)
          - wideTrack.containerWidth)
    ∧ (step (some wideTrack) 16 dragState (Event.down 0)).maxTranslate
        = dragState.maxTranslate :=
  have h := useSlider_C7 wideTrack 16 initState (by norm_num [wideTrack])
  ⟨h.1, h.2 (Event.down 0) dragState⟩

/-- Counterexample to C7 as stated: on a mounted track with zero children the
measuring effect does not run, so `maxTranslate` stays 0 instead of the
formula's `-(0 + gap * (0 - 1) - containerWidth) = 116`. -/
theorem useSlider_C7_cex :
    (mountEffect (some emptyTrack) 16 initState).maxTranslate
      ≠ -(emptyTrack.slides.sum + 16 * ((emptyTrack.slides.length : ℚ) - 1)
          - emptyTrack.containerWidth) := by
  norm_num [mountEffect, initState, emptyTrack]

/-- Claim C3 (amended): on a pointer-move of a held gesture whose delta is
nonzero, a tentative offset past a bound renders as the bound plus exactly
`BOUNCE_FACTOR` times the excess: past 0 when the tentative offset is
positive, past `maxTranslate` when it is nonpositive and below the bound. -/
theorem useSlider_C3 (t : Track) (x : ℚ) (s : SliderState)
    (hmd : s.isMouseDown = true) (hnz : x - s.startPos ≠ 0) :
    (s.prevTranslate + (x - s.startPos) > 0 →
      (handleMouseMoveTouchMove (some t) x s).currentTranslate
        = 0 + BOUNCE_FACTOR * (s.prevTranslate + (x - s.startPos) - 0))
    ∧ (s.prevTranslate + (x - s.startPos) ≤ 0 →
        s.prevTranslate + (x - s.startPos) < s.maxTranslate →
        (handleMouseMoveTouchMove (some t) x s).currentTranslate
          = s.maxTranslate + BOUNCE_FACTOR * (s.prevTranslate + (x - s.startPos) - s.maxTranslate)) := by
  rw [handleMouseMoveTouchMove_some, if_pos ⟨hmd, hnz⟩]
  dsimp only
  constructor
  · intro hpos
    rw [if_pos hpos]
    ring
  · intro hle hlt
    rw [if_neg (not_lt.mpr hle), if_pos hlt]
    ring

/-- Witness for C3 from `dragState`: a move to 10 overshoots the left bound and
renders `0.3 * 10 = 3`; a move to -200 undershoots -116 and renders
`-116 + 0.3 * (-84)`. -/
theorem useSlider_C3_witness :
    (handleMouseMoveTouchMove (some wideTrack) 10 dragState).currentTranslate
      = 0 + BOUNCE_FACTOR * (dragState.prevTranslate + (10 - dragState.startPos) - 0)
    ∧ (handleMouseMoveTouchMove (some wideTrack) (-200) dragState).currentTranslate
      = dragState.maxTranslate
          + BOUNCE_FACTOR * (dragState.prevTranslate + (-200 - dragState.startPos)
              - dragState.maxTranslate) :=
  ⟨(useSlider_C3 wideTrack 10 dragState rfl (by norm_num [dragState])).1
      (by norm_num [dragState]),
   (useSlider_C3 wideTrack (-200) dragState rfl (by norm_num [dragState])).2
      (by norm_num [dragState]) (by norm_num [dragState])⟩

/-- Counterexample to C3 as stated: after releasing an overscrolled gesture
(`prevTranslate = 3 > 0`) and pressing again at 0, a move event still at 0 has
zero delta, so the handler skips the update: the tentative offset
`prevTranslate + 0 = 3` exceeds the left bound yet the rendered offset stays 0
instead of `0 + 0.3 * 3`. -/
theorem useSlider_C3_cex :
    (run (some wideTrack) 16
        [Event.down 0, Event.move 10, Event.up insideTarget, Event.down 0]).isMouseDown = true
    ∧ (run (some wideTrack) 16
        [Event.down 0, Event.move 10, Event.up insideTarget, Event.down 0]).prevTranslate
        + (0 - (run (some wideTrack) 16
            [Event.down 0, Event.move 10, Event.up insideTarget, Event.down 0]).startPos) > 0
    ∧ (handleMouseMoveTouchMove (some wideTrack) 0
        (run (some wideTrack) 16
          [Event.down 0, Event.move 10, Event.up insideTarget, Event.down 0])).currentTranslate
      ≠ 0 + BOUNCE_FACTOR * ((run (some wideTrack) 16
          [Event.down 0, Event.move 10, Event.up insideTarget, Event.down 0]).prevTranslate
        + (0 - (run (some wideTrack) 16
            [Event.down 0, Event.move 10, Event.up insideTarget, Event.down 0]).startPos) - 0) := by
  norm_num [run, runFrom, step, mountEffect, initState, listenerEffect, handleMouseDownTouchStart,
    handleMouseMoveTouchMove, calculateDiff, translate, BOUNCE_FACTOR, wideTrack, insideTarget,
    handleMouseUpTouchEnd]

/-- Claim C6 (amended): on a pointer-move of a held gesture whose delta is
nonzero, a tentative offset `prevTranslate + delta` inside `[maxTranslate, 0]`
is rendered unchanged. -/
theorem useSlider_C6 (t : Track) (x : ℚ) (s : SliderState)
    (hmd : s.isMouseDown = true) (hnz : x - s.startPos ≠ 0)
    (hlow : s.maxTranslate ≤ s.prevTranslate + (x - s.startPos))
    (hhigh : s.prevTranslate + (x - s.startPos) ≤ 0) :
    (handleMouseMoveTouchMove (some t) x s).currentTranslate
      = s.prevTranslate + (x - s.startPos) := by
  rw [handleMouseMoveTouchMove_some, if_pos ⟨hmd, hnz⟩]
  dsimp only
  rw [if_neg (not_lt.mpr hhigh), if_neg (not_lt.mpr hlow)]

/-- Witness for C6 from `dragState`: a move to -50 lands inside `[-116, 0]` and
renders exactly -50. -/
theorem useSlider_C6_witness :
    (handleMouseMoveTouchMove (some wideTrack) (-50) dragState).currentTranslate
      = dragState.prevTranslate + (-50 - dragState.startPos) :=
  useSlider_C6 wideTrack (-50) dragState rfl (by norm_num [dragState])
    (by norm_num [dragState]) (by norm_num [dragState])

/-- Counterexample to C6 as stated: after down at 0 and a move to 10 the
rendered offset is the damped 3; a further move event back at 0 has zero delta
and is skipped, so although the tentative offset `prevTranslate + 0 = 0` lies
inside `[-116, 0]`, the rendered offset stays 3 instead of 0. -/
theorem useSlider_C6_cex :
    (run (some wideTrack) 16 [Event.down 0, Event.move 10]).isMouseDown = true
    ∧ (run (some wideTrack) 16 [Event.down 0, Event.move 10]).maxTranslate
        ≤ (run (some wideTrack) 16 [Event.down 0, Event.move 10]).prevTranslate
          + (0 - (run (some wideTrack) 16 [Event.down 0, Event.move 10]).startPos)
    ∧ (run (some wideTrack) 16 [Event.down 0, Event.move 10]).prevTranslate
        + (0 - (run (some wideTrack) 16 [Event.down 0, Event.move 10]).startPos) ≤ 0
    ∧ (handleMouseMoveTouchMove (some wideTrack) 0
        (run (some wideTrack) 16 [Event.down 0, Event.move 10])).currentTranslate
      ≠ (run (some wideTrack) 16 [Event.down 0, Event.move 10]).prevTranslate
        + (0 - (run (some wideTrack) 16 [Event.down 0, Event.move 10]).startPos) := by
  norm_num [run, runFrom, step, mountEffect, initState, listenerEffect, handleMouseDownTouchStart,
    handleMouseMoveTouchMove, calculateDiff, translate, BOUNCE_FACTOR, wideTrack]

/-- After every settled step the listener effect has synchronised the attached
flag with the dragging flag. -/
theorem step_attached (track : Option Track) (g : ℚ) (s : SliderState) (e : Event) :
    (step track g s e).listenersAttached = (step track g s e).isDragging := by
  cases e <;> rfl

/-- The listener invariant is preserved along any event list. -/
theorem runFrom_attached (track : Option Track) (g : ℚ) (events : List Event) :
    ∀ s : SliderState, s.listenersAttached = s.isDragging →
      (runFrom track g s events).listenersAttached = (runFrom track g s events).isDragging := by
  induction events with
  | nil => intro s h; exact h
  | cons e es ih =>
    intro s _
    simp only [runFrom, List.foldl_cons]
    exact ih (step track g s e) (step_attached track g s e)

/-- The mount-only measuring effect touches neither flag. -/
theorem mountEffect_flags (track : Option Track) (g : ℚ) (s : SliderState) :
    (mountEffect track g s).listenersAttached = s.listenersAttached
    ∧ (mountEffect track g s).isDragging = s.isDragging := by
  cases track with
  | none => exact ⟨rfl, rfl⟩
  | some t =>
    simp only [mountEffect]
    split_ifs <;> exact ⟨rfl, rfl⟩

/-- Claim C5 (amended): over every post-mount trace, the global listeners are
attached exactly when the dragging flag is set; the unmount cleanup removes
them; and a release whose target is inside the track, or not on the multi-modal
background, clears the dragging flag and detaches the listeners.  (A release on
the multi-modal background deliberately keeps the flag, and hence the
listeners, set.) -/
theorem useSlider_C5 (t : Track) (g : ℚ) (events : List Event) :
    ((run (some t) g events).listenersAttached = (run (some t) g events).isDragging)
    ∧ ((unmountCleanup (run (some t) g events)).listenersAttached = false)
    ∧ (∀ tgt : Target, (tgt.insideTrack = true ∨ tgt.closestMultiModal = false) →
        (step (some t) g (run (some t) g events) (Event.up tgt)).isDragging = false
        ∧ (step (some t) g (run (some t) g events) (Event.up tgt)).listenersAttached = false) := by
  refine ⟨?_, rfl, ?_⟩
  · refine runFrom_attached (some t) g events _ ?_
    rw [(mountEffect_flags (some t) g initState).1, (mountEffect_flags (some t) g initState).2]
    rfl
  · intro tgt htgt
    have hd : (step (some t) g (run (some t) g events) (Event.up tgt)).isDragging = false := by
      simp only [step, listenerEffect, handleMouseUpTouchEnd_some]
      rcases htgt with h | h
      · simp [h]
      · by_cases hin : tgt.insideTrack <;> simp [hin, h]
    exact ⟨hd, by rw [step_attached]; exact hd⟩

/-- Witness for C5 on the empty trace with an inside-track release. -/
theorem useSlider_C5_witness :
    ((run (some wideTrack) 16 []).listenersAttached = (run (some wideTrack) 16 []).isDragging)
    ∧ ((unmountCleanup (run (some wideTrack) 16 [])).listenersAttached = false)
    ∧ ((step (some wideTrack) 16 (run (some wideTrack) 16 [])
          (Event.up insideTarget)).isDragging = false
       ∧ (step (some wideTrack) 16 (run (some wideTrack) 16 [])
            (Event.up insideTarget)).listenersAttached = false) :=
  have h := useSlider_C5 wideTrack 16 []
  ⟨h.1, h.2.1, h.2.2 insideTarget (Or.inl rfl)⟩

/-- Counterexample to C5 as stated: a drag released on the multi-modal
background takes the early-return branch that never clears the dragging flag,
so after the gesture release the global listeners are still attached. -/
theorem useSlider_C5_cex :
    (run (some wideTrack) 16
        [Event.down 0, Event.move 10, Event.up multiModalTarget]).listenersAttached = true := by
  norm_num [run, runFrom, step, mountEffect, initState, listenerEffect, handleMouseDownTouchStart,
    handleMouseMoveTouchMove, calculateDiff, translate, BOUNCE_FACTOR, wideTrack, multiModalTarget,
    handleMouseUpTouchEnd]

/-- A move step on a mounted track never changes the recorded starting
coordinate. -/
theorem move_step_startPos (t : Track) (g : ℚ) (x : ℚ) (s : SliderState) :
    (step (some t) g s (Event.move x)).startPos = s.startPos := by
  simp only [step, listenerEffect, handleMouseMoveTouchMove_some]
  split_ifs <;> rfl

/-- A move step on a mounted track never changes the held flag. -/
theorem move_step_isMouseDown (t : Track) (g : ℚ) (x : ℚ) (s : SliderState) :
    (step (some t) g s (Event.move x)).isMouseDown = s.isMouseDown := by
  simp only [step, listenerEffect, handleMouseMoveTouchMove_some]
  split_ifs <;> rfl

/-- A move step never clears an already-set dragging flag. -/
theorem move_step_drag_true (t : Track) (g : ℚ) (x : ℚ) (s : SliderState)
    (h : s.isDragging = true) :
    (step (some t) g s (Event.move x)).isDragging = true := by
  simp only [step, listenerEffect, handleMouseMoveTouchMove_some]
  split_ifs <;> simp [h]

/-- A move event that stays at the starting coordinate has zero delta and
leaves the dragging flag as it was. -/
theorem move_step_drag_still (t : Track) (g : ℚ) (x : ℚ) (s : SliderState)
    (hx : x = s.startPos) :
    (step (some t) g s (Event.move x)).isDragging = s.isDragging := by
  simp only [step, listenerEffect, handleMouseMoveTouchMove_some]
  rw [if_neg]
  intro hc
  exact hc.2 (sub_eq_zero.mpr hx)

/-- A move event away from the starting coordinate while the button is held
sets the dragging flag. -/
theorem move_step_drag_far (t : Track) (g : ℚ) (x : ℚ) (s : SliderState)
    (hmd : s.isMouseDown = true) (hx : x ≠ s.startPos) :
    (step (some t) g s (Event.move x)).isDragging = true := by
  simp only [step, listenerEffect, handleMouseMoveTouchMove_some]
  rw [if_pos ⟨hmd, sub_ne_zero.mpr hx⟩]

/-- Any sequence of move steps preserves the starting coordinate. -/
theorem moves_startPos (t : Track) (g : ℚ) (mvs : List ℚ) :
    ∀ s : SliderState,
      (runFrom (some t) g s (mvs.map Event.move)).startPos = s.startPos := by
  induction mvs with
  | nil => intro s; rfl
  | cons y ys ih =>
    intro s
    simp only [List.map_cons, runFrom, List.foldl_cons]
    rw [show List.foldl (step (some t) g) (step (some t) g s (Event.move y))
          (ys.map Event.move)
        = runFrom (some t) g (step (some t) g s (Event.move y)) (ys.map Event.move) from rfl]
    rw [ih, move_step_startPos]

/-- Any sequence of move steps preserves the held flag. -/
theorem moves_isMouseDown (t : Track) (g : ℚ) (mvs : List ℚ) :
    ∀ s : SliderState,
      (runFrom (some t) g s (mvs.map Event.move)).isMouseDown = s.isMouseDown := by
  induction mvs with
  | nil => intro s; rfl
  | cons y ys ih =>
    intro s
    simp only [List.map_cons, runFrom, List.foldl_cons]
    rw [show List.foldl (step (some t) g) (step (some t) g s (Event.move y))
          (ys.map Event.move)
        = runFrom (some t) g (step (some t) g s (Event.move y)) (ys.map Event.move) from rfl]
    rw [ih, move_step_isMouseDown]

/-- Once set, the dragging flag survives any sequence of move steps. -/
theorem moves_drag_true (t : Track) (g : ℚ) (mvs : List ℚ) :
    ∀ s : SliderState, s.isDragging = true →
      (runFrom (some t) g s (mvs.map Event.move)).isDragging = true := by
  induction mvs with
  | nil => intro s h; exact h
  | cons y ys ih =>
    intro s h
    simp only [List.map_cons, runFrom, List.foldl_cons]
    exact ih (step (some t) g s (Event.move y)) (move_step_drag_true t g y s h)

/-- A sequence of move events all at the starting coordinate leaves the
dragging flag as it was. -/
theorem moves_drag_still (t : Track) (g : ℚ) (mvs : List ℚ) :
    ∀ s : SliderState, (∀ x ∈ mvs, x = s.startPos) →
      (runFrom (some t) g s (mvs.map Event.move)).isDragging = s.isDragging := by
  induction mvs with
  | nil => intro s _; rfl
  | cons y ys ih =>
    intro s hall
    simp only [List.map_cons, runFrom, List.foldl_cons]
    have hy : y = s.startPos := hall y (List.mem_cons_self y ys)
    have hrec := ih (step (some t) g s (Event.move y)) (by
      intro x hx
      rw [move_step_startPos]
      exact hall x (List.mem_cons_of_mem y hx))
    rw [show List.foldl (step (some t) g) (step (some t) g s (Event.move y))
          (ys.map Event.move)
        = runFrom (some t) g (step (some t) g s (Event.move y)) (ys.map Event.move) from rfl]
    rw [hrec, move_step_drag_still t g y s hy]

/-- If the button is held and some move event strays from the starting
coordinate, the dragging flag ends up set. -/
theorem moves_drag_far (t : Track) (g : ℚ) (mvs : List ℚ) :
    ∀ s : SliderState, s.isMouseDown = true → (∃ x ∈ mvs, x ≠ s.startPos) →
      (runFrom (some t) g s (mvs.map Event.move)).isDragging = true := by
  induction mvs with
  | nil =>
    intro s _ hex
    obtain ⟨x, hx, _⟩ := hex
    exact absurd hx (List.not_mem_nil x)
  | cons y ys ih =>
    intro s hmd hex
    simp only [List.map_cons, runFrom, List.foldl_cons]
    by_cases hy : y = s.startPos
    · obtain ⟨x, hx, hne⟩ := hex
      rcases List.mem_cons.mp hx with hxy | hxys
      · exact absurd (hxy.trans hy) hne
      · exact ih (step (some t) g s (Event.move y))
          (by rw [move_step_isMouseDown]; exact hmd)
          ⟨x, hxys, by rw [move_step_startPos]; exact hne⟩
    · exact moves_drag_true t g ys (step (some t) g s (Event.move y))
        (move_step_drag_far t g y s hmd hy)

/-- When the gesture was not a drag and the release target matches
`.layout-key`, one invocation of the input-click callback fires the state
update exactly once. -/
theorem up_count_tap (t : Track) (g : ℚ) (tgt : Target) (s : SliderState)
    (hdr : s.isDragging = false) (hlk : tgt.closestLayoutKey = true) :
    handleInputClick (step (some t) g s (Event.up tgt)) = 1 := by
  simp only [step, listenerEffect, handleMouseUpTouchEnd_some, handleInputClick]
  simp only [hdr, hlk]
  split_ifs <;> simp_all

/-- When the gesture was a drag, one invocation of the input-click callback
fires no state update. -/
theorem up_count_drag (t : Track) (g : ℚ) (tgt : Target) (s : SliderState)
    (hdr : s.isDragging = true) :
    handleInputClick (step (some t) g s (Event.up tgt)) = 0 := by
  simp only [step, listenerEffect, handleMouseUpTouchEnd_some, handleInputClick]
  simp only [hdr]
  split_ifs <;> simp_all

/-- Claim C4 (amended): starting undragged, a gesture whose every move event
stays at the down coordinate (so the dragging flag is never set) and whose
release target matches `.layout-key` fires the provided state update exactly
once per callback invocation; a gesture in which some move event strays from
the down coordinate never fires it. -/
theorem useSlider_C4 (t : Track) (g : ℚ) (s0 : SliderState) (x0 : ℚ) (mvs : List ℚ)
    (tgt : Target) (h0 : s0.isDragging = false) (hlk : tgt.closestLayoutKey = true) :
    ((∀ x ∈ mvs, x = x0) →
      handleInputClick (runFrom (some t) g s0
        (Event.down x0 :: (mvs.map Event.move ++ [Event.up tgt]))) = 1)
    ∧ ((∃ x ∈ mvs, x ≠ x0) →
      handleInputClick (runFrom (some t) g s0
        (Event.down x0 :: (mvs.map Event.move ++ [Event.up tgt]))) = 0) := by
  have hsplit : runFrom (some t) g s0 (Event.down x0 :: (mvs.map Event.move ++ [Event.up tgt]))
      = step (some t) g
          (runFrom (some t) g (step (some t) g s0 (Event.down x0)) (mvs.map Event.move))
          (Event.up tgt) := by
    simp [runFrom, List.foldl_append]
  have hsp : (step (some t) g s0 (Event.down x0)).startPos = x0 := rfl
  constructor
  · intro hall
    rw [hsplit]
    refine up_count_tap t g tgt _ ?_ hlk
    rw [moves_drag_still t g mvs (step (some t) g s0 (Event.down x0)) (by
      intro x hx
      rw [hsp]
      exact hall x hx)]
    exact h0
  · intro hex
    rw [hsplit]
    refine up_count_drag t g tgt _ ?_
    refine moves_drag_far t g mvs (step (some t) g s0 (Event.down x0)) rfl ?_
    obtain ⟨x, hx, hne⟩ := hex
    exact ⟨x, hx, by rw [hsp]; exact hne⟩

/-- Witness for C4: from the initial state, a tap (down at 0, one move still at
0, release on a `.layout-key` child) fires once; a drag out to 5 and back to 0
fires zero times. -/
theorem useSlider_C4_witness :
    handleInputClick (runFrom (some wideTrack) 16 initState
      (Event.down 0 :: (([0] : List ℚ).map Event.move ++ [Event.up layoutKeyTarget]))) = 1
    ∧ handleInputClick (runFrom (some wideTrack) 16 initState
      (Event.down 0 :: (([5, 0] : List ℚ).map Event.move ++ [Event.up layoutKeyTarget]))) = 0 :=
  ⟨(useSlider_C4 wideTrack 16 initState 0 [0] layoutKeyTarget rfl rfl).1
      (by intro x hx; simpa using hx),
   (useSlider_C4 wideTrack 16 initState 0 [5, 0] layoutKeyTarget rfl rfl).2
      ⟨5, by simp, by norm_num⟩⟩

/-- Counterexample to C4 as stated: the gesture down at 0, move to 5, move back
to 0, release on a `.layout-key` child has zero net pointer movement, yet the
out-and-back move set the dragging flag, so the callback fires zero state
updates instead of exactly one. -/
theorem useSlider_C4_cex :
    handleInputClick (run (some wideTrack) 16
      [Event.down 0, Event.move 5, Event.move 0, Event.up layoutKeyTarget]) = 0 := by
  norm_num [run, runFrom, step, mountEffect, initState, listenerEffect, handleMouseDownTouchStart,
    handleMouseMoveTouchMove, calculateDiff, translate, BOUNCE_FACTOR, wideTrack, layoutKeyTarget,
    handleMouseUpTouchEnd, handleInputClick]

end UseSlider
